import Mathlib

/-!
Shallow embedding of the `librarian` row-processing worker (porter package).

The embedding models, from the source files:
 * `tools/get_website_async.py` — body-text normalization (the two `re.sub`
   calls at lines 126-127, shared verbatim with
   `get_website_text_only_async.py` lines 68-69) and the title/description
   fallback chains (lines 66-79 and 94-110);
 * `tools/simple_ai_async.py` — `get_ai_response_async` (lines 27-61) and
   `get_validated_response_async` (lines 63-105);
 * `bad_main.py` — `handle_ai_processing` (lines 190-270), `handle_website`
   (lines 89-187), `process_row` (lines 59-86), `main_async` (lines 315-355)
   and `run_continuously` (lines 358-409).

External effects (Airtable reads/writes, the browser, the completion API,
the file system) are modelled as explicit oracle parameters; each worker
returns the trace of the externally visible calls it makes.
-/

/- ======================= Python text primitives ======================= -/

/-- Python's `\s` character class over ASCII: space, tab, newline, carriage
return, vertical tab, form feed (the set `str.strip()` also trims). -/
def isPySpace (c : Char) : Bool :=
  c = ' ' || c = '\t' || c = '\n' || c = '\r' || c = Char.ofNat 11 || c = Char.ofNat 12

/-- `l[1:-1]` on a character list: drop the first and last characters. -/
def pyInner (l : List Char) : List Char :=
  (l.drop 1).dropLast

/-- Python `str.strip()` on a character list: remove leading and trailing
whitespace. -/
def pyStripL (l : List Char) : List Char :=
  List.rdropWhile isPySpace (l.dropWhile isPySpace)

/-- Python `str.strip()`. -/
def pyStrip (s : String) : String :=
  String.mk (pyStripL s.data)

/-- Python `s[:1000]` (used by the `str(e)[:1000]` truncations). -/
def pyTake1000 (s : String) : String :=
  String.mk (s.data.take 1000)

/-- Flush one maximal run matched so far: a run of `k` or more characters is
replaced by `rep`, a shorter run is kept verbatim. -/
def runFlush (k : Nat) (rep run : List Char) : List Char :=
  if k ≤ run.length then rep else run

/-- Worker for `collapseRuns`: `run` is the current (all-`p`) run of
characters read but not yet emitted. -/
def collapseRunsAux (p : Char → Bool) (k : Nat) (rep : List Char) :
    List Char → List Char → List Char
  | run, [] => runFlush k rep run
  | run, c :: cs =>
    if p c then collapseRunsAux p k rep (run ++ [c]) cs
    else runFlush k rep run ++ c :: collapseRunsAux p k rep [] cs

/-- Semantics of `re.sub(r'X{k,}', rep, s)` for a single-character class `X`
(here `\n` or `\s`): every maximal run of `k` or more characters of the class
is replaced by `rep`; shorter runs are kept. -/
def collapseRuns (p : Char → Bool) (k : Nat) (rep : List Char) (l : List Char) : List Char :=
  collapseRunsAux p k rep [] l

/-- Body-text normalization of `get_website_async.py` lines 126-127 and
`get_website_text_only_async.py` lines 68-69:
`re.sub(r'\n{3,}', '\n\n', t)` followed by `re.sub(r'\s{2,}', ' ', t)`. -/
def normalize_body_text (s : String) : String :=
  String.mk (collapseRuns isPySpace 2 [' ']
    (collapseRuns (fun c => c = '\n') 3 ['\n', '\n'] s.data))

/- =================== title / description fallbacks ==================== -/

/-- Python truthiness of an optional string (`None` and `""` are falsy). -/
def truthyOpt (o : Option String) : Bool :=
  match o with
  | none => false
  | some s => s ≠ ""

/-- `get_website_async.py` lines 66-79: `page.title()` (always a string),
falling back to the `og:title` and then the `twitter:title` meta attribute
(each `None` or a string) when the previous candidate is falsy; the selected
candidate is stripped at the end (`title.strip() if title else ""`). -/
def resolve_title (primary : String) (og tw : Option String) : String :=
  let title :=
    if primary ≠ "" then primary
    else if truthyOpt og then og.getD ""
    else if truthyOpt tw then tw.getD ""
    else primary
  pyStrip title

/-- `get_website_async.py` lines 94-110: `meta[name="description"]`, falling
back to `og:description` then `twitter:description`; the selected candidate is
stripped at the end (`description.strip() if description else ""`). -/
def resolve_description (meta og tw : Option String) : String :=
  let d :=
    if truthyOpt meta then meta.getD ""
    else if truthyOpt og then og.getD ""
    else if truthyOpt tw then tw.getD ""
    else ""
  pyStrip d

/-- The fallback chain as the specification words it: the result is the first
candidate in order that is non-empty AFTER whitespace trimming, trimmed (the
empty string when every candidate is empty). Stated for comparison with
`resolve_title` / `resolve_description`. -/
def spec_first_trimmed_nonempty (candidates : List String) : String :=
  match candidates with
  | [] => ""
  | c :: rest => if pyStrip c ≠ "" then pyStrip c else spec_first_trimmed_nonempty rest

/- ================== simple_ai_async: completion wrapper =============== -/

/-- The double-quote character. -/
def dqc : Char := Char.ofNat 34

/-- The single-quote character. -/
def sqc : Char := Char.ofNat 39

/-- The single-quote character as a string. -/
def sqs : String := String.singleton sqc

/-- `simple_ai_async.py` lines 47-50, one pass: if the text has length > 1 and
starts and ends with the quote `q`, drop the surrounding pair and re-strip
(`text_content[1:-1].strip()`); otherwise leave the text unchanged. -/
def stripSurroundingQuote (q : Char) (t : List Char) : List Char :=
  if t.length > 1 ∧ t.head? = some q ∧ t.getLast? = some q
  then pyStripL (pyInner t) else t

/-- Cleanup of `simple_ai_async.py` lines 43-56 applied to the raw message
content (`None` coerced to `""`): strip, then the double-quote pass, then the
single-quote pass; `none` if the result is empty. -/
def cleanupResponse (content : Option String) : Option String :=
  let t0 := pyStripL (content.getD "").data
  let t1 := stripSurroundingQuote dqc t0
  let t2 := stripSurroundingQuote sqc t1
  if t2 = [] then none else some (String.mk t2)

/-- `get_ai_response_async` (`simple_ai_async.py` lines 27-61). `apiKey` is
whether `OPENAI_API_KEY` is set; `call` is the completion request outcome: an
exception (caught, line 58) or the optional message content. -/
def get_ai_response (apiKey : Bool) (call : Except String (Option String)) : Option String :=
  if apiKey = false then none
  else
    match call with
    | .error _ => none
    | .ok content => cleanupResponse content

/-- The cleanup as the claim words it: one layer of matching surrounding
double OR single quotes removed (a single removal), after stripping.
Stated for comparison with `cleanupResponse`. -/
def claim_one_layer_cleanup (content : Option String) : Option String :=
  let t0 := pyStripL (content.getD "").data
  let t1 :=
    if t0.length > 1 ∧ t0.head? = some dqc ∧ t0.getLast? = some dqc
    then pyStripL (pyInner t0)
    else if t0.length > 1 ∧ t0.head? = some sqc ∧ t0.getLast? = some sqc
    then pyStripL (pyInner t0)
    else t0
  if t1 = [] then none else some (String.mk t1)

/- ============ simple_ai_async: validated-completion retry loop ======== -/

/-- The validation prompt of `simple_ai_async.py` lines 73-86 (an f-string
interpolating the original prompt and the proposed response). -/
def mkValidationPrompt (prompt response : String) : String :=
  "\n            Is this a valid response to this prompt?\n            On a scale of 0 to 1, only consider it valid if it is above .9 rating.\n            If it is valid, respond with the number 1.\n            If not, respond with constructive feedback.\n            ---\n            Original prompt:\n                "
    ++ sqs ++ prompt ++ sqs
    ++ ",\n            ---\n            Proposed response:\n                "
    ++ sqs ++ response ++ sqs
    ++ "\n            ---\n            Please evaluate and respond with 1 if the response is valid and direct feedback if not.\n            "

/-- The revised prompt of `simple_ai_async.py` line 103, folding the
validation feedback into the original prompt. -/
def mkRetryPrompt (prompt feedback : String) : String :=
  "Please rephrase your response to address feedback. Original Prompt: "
    ++ sqs ++ prompt ++ sqs ++ ", Feedback: " ++ sqs ++ feedback ++ sqs

/-- `get_validated_response_async` (`simple_ai_async.py` lines 63-105).
`cO`/`vO` are the completion and validation oracles: each call of
`get_ai_response_async` is modelled by the oracle applied to the round index
and the prompt passed (its result is `none` or a string, per
`get_ai_response`). `retries` counts down as in the `while retries > 0` loop;
falling off the loop returns `None`. -/
def get_validated_response (cO vO : Nat → String → Option String) :
    Nat → Nat → String → Option String
  | 0, _, _ => none
  | r + 1, k, prompt =>
    match cO k prompt with
    | none => none
    | some orig =>
      if orig = "" then none
      else
        match vO k (mkValidationPrompt prompt orig) with
        | none => none
        | some v =>
          if v = "" then none
          else if v = "1" then some orig
          else get_validated_response cO vO r (k + 1) (mkRetryPrompt prompt v)

/-- Entry point with the default retry budget `retries=3`. -/
def get_validated_response_async (cO vO : Nat → String → Option String)
    (prompt : String) : Option String :=
  get_validated_response cO vO 3 0 prompt

/- ================= bad_main: prompt resolution (rows) ================= -/

/-- Left brace. -/
def lbc : Char := Char.ofNat 123

/-- Right brace. -/
def rbc : Char := Char.ofNat 125

/-- A row's `fields` dict: field name to value, where a present key can still
hold a null (`none`) value. -/
abbrev Fields := List (String × Option String)

/-- Dict lookup: `some v` when the key is present (`v` its possibly-null
value), `none` when the key is absent. -/
def lookupField (fields : Fields) (key : String) : Option (Option String) :=
  (fields.find? (fun kv => kv.1 = key)).map (fun kv => kv.2)

/-- `key in fields` (dict membership, regardless of the value). -/
def hasField (fields : Fields) (key : String) : Bool :=
  (lookupField fields key).isSome

/-- The non-null value of a field: `some v` exactly when the key is present
with a non-null value. -/
def fieldValue (fields : Fields) (key : String) : Option String :=
  match lookupField fields key with
  | some (some v) => some v
  | _ => none

/-- Scanner for `findPlaceholders`, structurally recursive on a fuel bound
(each step consumes at least one character, so `fuel = length` suffices). -/
def findPlaceholdersGo : Nat → List Char → List (List Char)
  | 0, _ => []
  | _, [] => []
  | fuel + 1, c :: cs =>
    if c = lbc then
      let inner := cs.takeWhile (fun d => d ≠ lbc ∧ d ≠ rbc)
      if inner ≠ [] ∧ (cs.drop inner.length).head? = some rbc
      then inner :: findPlaceholdersGo fuel (cs.drop (inner.length + 1))
      else findPlaceholdersGo fuel cs
    else findPlaceholdersGo fuel cs

/-- `re.findall(r'{([^{}]+)}', s)` (`bad_main.py` line 218): scan left to
right; at a left brace take the maximal run of non-brace characters, and when
that run is non-empty and followed by a right brace, capture it and resume
after the right brace; otherwise advance one character. -/
def findPlaceholders (l : List Char) : List (List Char) :=
  findPlaceholdersGo l.length l

/-- Scanner for `replaceAll`, structurally recursive on a fuel bound (each
step consumes at least one character, so `fuel = length` suffices). -/
def replaceAllGo (pat rep : List Char) : Nat → List Char → List Char
  | 0, l => l
  | _, [] => []
  | fuel + 1, c :: cs =>
    if pat ≠ [] ∧ pat.isPrefixOf (c :: cs)
    then rep ++ replaceAllGo pat rep fuel ((c :: cs).drop pat.length)
    else c :: replaceAllGo pat rep fuel cs

/-- Python `str.replace(pat, rep)`: replace every non-overlapping occurrence
of `pat`, scanning left to right (identity when `pat` is empty, which never
arises here: the patterns are brace-wrapped placeholder names). -/
def replaceAll (pat rep : List Char) (l : List Char) : List Char :=
  replaceAllGo pat rep l.length l

/-- The `{placeholder}` token for a placeholder name. -/
def braceToken (p : List Char) : List Char :=
  lbc :: p ++ [rbc]

/-- The substitution loop of `bad_main.py` lines 219-226: placeholders are
processed in the order found; a placeholder present in the row fields with a
non-null value is replaced (all occurrences) in the working prompt; a missing
or null placeholder aborts the whole field (`valid_substitution = False`). -/
def substPlaceholders (fields : Fields) : List Char → List (List Char) → Option (List Char)
  | prompt, [] => some prompt
  | prompt, p :: ps =>
    match fieldValue fields (String.mk p) with
    | some v => substPlaceholders fields (replaceAll (braceToken p) v.data prompt) ps
    | none => none

/-- Placeholder resolution for one prompt template (`bad_main.py` lines
216-229): extract the `{...}` tokens, then substitute each in order; `none`
means the field is skipped entirely. -/
def resolve_prompt (base : String) (fields : Fields) : Option String :=
  (substPlaceholders fields base.data (findPlaceholders base.data)).map String.mk

/- ================= bad_main: AI generation worker ===================== -/

/-- Python `str.startswith(pre)` (character-level prefix test). -/
def pyStartsWith (s pre : String) : Bool :=
  pre.data.isPrefixOf s.data

/-- One Airtable schema field: a name and an optional description. -/
structure SchemaField where
  name : String
  description : Option String
deriving DecidableEq, Repr

/-- Base-prompt choice of `bad_main.py` lines 204-214: a prompt-library entry
keyed by the field name wins (used as-is); otherwise a truthy (non-null,
non-empty) schema description; otherwise the field is skipped. -/
def base_prompt (lib : List (String × String)) (f : SchemaField) : Option String :=
  match List.lookup f.name lib with
  | some p => some p
  | none =>
    match f.description with
    | some d => if d = "" then none else some d
    | none => none

/-- The eligible (field name, final prompt) list of `bad_main.py` lines
199-235, in schema order: fields whose name starts with `AI_` and which are
not already present on the row, with a base prompt and a full placeholder
resolution. -/
def eligible_prompts (lib : List (String × String)) (schema : List SchemaField)
    (fields : Fields) : List (String × String) :=
  match schema with
  | [] => []
  | f :: rest =>
    let tail := eligible_prompts lib rest fields
    if pyStartsWith f.name "AI_" = true ∧ hasField fields f.name = false then
      match base_prompt lib f with
      | none => tail
      | some bp =>
        match resolve_prompt bp fields with
        | none => tail
        | some prompt => (f.name, prompt) :: tail
    else tail

/-- Outcome of one `get_validated_response_async` task as seen through
`asyncio.gather(..., return_exceptions=True)`: an exception (captured as its
`str`) or the returned optional text. -/
abbrev AiCallResult := Except String (Option String)

/-- The message of the `UnboundLocalError` raised by `bad_main.py` line 262
when `ai_tasks` is empty: `has_errors` is assigned only inside the
`if ai_tasks:` block (line 244), so the read at line 262 hits an unbound
local (CPython <= 3.10 wording of `str(e)`). -/
def hasErrorsUnboundMsg : String :=
  "local variable " ++ sqs ++ "has_errors" ++ sqs ++ " referenced before assignment"

/-- The per-field update values of `bad_main.py` lines 245-256: an exception
becomes an `AI Error: ...` field value, a truthy response is stored, a `None`
or empty response stores nothing. -/
def ai_updates_of (resp : List (String × AiCallResult)) : List (String × String) :=
  resp.filterMap (fun nr =>
    match nr.2 with
    | .error e => some (nr.1, "AI Error: " ++ e)
    | .ok (some s) => if s = "" then none else some (nr.1, s)
    | .ok none => none)

/-- Whether any task result is an exception (`has_errors`). -/
def ai_has_errors (resp : List (String × AiCallResult)) : Bool :=
  resp.any (fun nr => match nr.2 with | .error _ => true | .ok _ => false)

/-- Trace of `handle_ai_processing` (`bad_main.py` lines 190-270): the
`AI in progress` write (line 193, before the `try`), the optional `ai_updates`
write (lines 258-259), and the final write. `ai` maps each task's index and
final prompt to its outcome. With no eligible task, line 262 raises
`UnboundLocalError` on `has_errors` and the `except` handler (lines 266-270)
writes `Status=Error` with truncated details instead of a final status. -/
def handle_ai_processing (lib : List (String × String)) (schema : List SchemaField)
    (fields : Fields) (ai : Nat → String → AiCallResult) : List (List (String × String)) :=
  let elig := eligible_prompts lib schema fields
  let resp := elig.enum.map (fun ip => (ip.2.1, ai ip.1 ip.2.2))
  let upd := ai_updates_of resp
  let first := [("Status", "AI in progress")]
  if elig.isEmpty then
    [first,
     [("Status", "Error"),
      ("Error Details", "AI setup failed: " ++ pyTake1000 hasErrorsUnboundMsg)]]
  else
    [first] ++ (if upd.isEmpty then [] else [upd]) ++
      [[("Status", if ai_has_errors resp then "Error" else "Done")]]

/-- The final `Status` value written by a trace: the `Status` entry of the
last update that carries one. -/
def finalStatus (trace : List (List (String × String))) : Option String :=
  match (trace.reverse.filterMap (fun u => List.lookup "Status" u)).head? with
  | some s => some s
  | none => none

/- ================= bad_main: web-extraction worker ==================== -/

/-- Externally visible calls of `handle_website`: Airtable updates,
attachment uploads, and local file removals (`os.remove` attempts). -/
inductive WebEv where
  | update (fields : List (String × String))
  | upload (field path : String)
  | remove (path : String)
deriving DecidableEq, Repr

/-- The 5-tuple returned by `get_website_async`. -/
structure ExtractResult where
  path : Option String
  title : String
  h1 : String
  descr : String
  text : String
deriving Repr

/-- Outcomes of the external calls made by one `handle_website` run: each
await is an exception (carried as its `str`) or its result; `removePrimaryOk`
and `removePricingOk` are whether the two `os.remove` calls on the success
path succeed (their failure is only logged, but leaves the file on disk for
the later error-path cleanup test `os.path.exists`). -/
structure WebEnv where
  extract1 : Except String ExtractResult
  uploadRes : Except String Unit
  removePrimaryOk : Bool
  extract2 : Except String ExtractResult
  removePricingOk : Bool
  updateMainRes : Except String Unit

/-- Prefix of the `Error Details` value written by `bad_main.py` line 186. -/
def webFailPrefix : String := "Web processing failed: "

/-- The `ValueError` message raised at `bad_main.py` line 108 for a null
screenshot path. -/
def screenshotFailMsg : String := "get_website_async failed to return a screenshot path."

/-- The `except` branch of `handle_website` (`bad_main.py` lines 168-186):
best-effort removal of whichever generated screenshot files still exist, then
the `Status=Error` write with truncated details. -/
def web_error_tail (sp pp : Option String) (e : String) : List WebEv :=
  (match sp with | some p => [WebEv.remove p] | none => []) ++
    (match pp with | some p => [WebEv.remove p] | none => []) ++
    [WebEv.update [("Status", "Error"),
                   ("Error Details", webFailPrefix ++ pyTake1000 e)]]

/-- Trace of `handle_website` (`bad_main.py` lines 89-187). The initial
`In progress` write (line 97) precedes the `try`. A failing final update
(line 165) raises before writing, so no `update` event is recorded for it;
the `except` branch then cleans up and attempts the `Status=Error` write. -/
def handle_website (pricing_url : Option String) (env : WebEnv) : List WebEv :=
  let ip := WebEv.update [("Status", "In progress")]
  match env.extract1 with
  | .error e => ip :: web_error_tail none none e
  | .ok r1 =>
    match r1.path with
    | none => ip :: web_error_tail none none screenshotFailMsg
    | some sp =>
      match env.uploadRes with
      | .error e => ip :: WebEv.upload "Screenshot" sp :: web_error_tail (some sp) none e
      | .ok _ =>
        let head := [ip, WebEv.upload "Screenshot" sp, WebEv.remove sp]
        let spLeft : Option String := if env.removePrimaryOk then none else some sp
        let base := [("Title", r1.title), ("H1", r1.h1),
                     ("Meta_Description", r1.descr), ("URL_Content", r1.text)]
        match pricing_url with
        | none =>
          match env.updateMainRes with
          | .ok _ => head ++ [WebEv.update (base ++ [("Status", "Toai")])]
          | .error e => head ++ web_error_tail spLeft none e
        | some purl =>
          match env.extract2 with
          | .error e => head ++ web_error_tail spLeft none e
          | .ok r2 =>
            match r2.path with
            | some pp =>
              let head2 := head ++ [WebEv.remove pp]
              let ppLeft : Option String := if env.removePricingOk then none else some pp
              let upd := base ++ [("Pricing_URL_Content", r2.text), ("Status", "Toai")]
              match env.updateMainRes with
              | .ok _ => head2 ++ [WebEv.update upd]
              | .error e => head2 ++ web_error_tail spLeft ppLeft e
            | none =>
              let upd := base ++
                [("Pricing_URL_Content", "Error processing pricing URL: " ++ purl),
                 ("Status", "Toai")]
              match env.updateMainRes with
              | .ok _ => head ++ [WebEv.update upd]
              | .error e => head ++ web_error_tail spLeft none e

/- ============ bad_main: per-row dispatch and the cycle ================ -/

/-- One Airtable row as fetched at cycle start. -/
structure Row where
  id : String
  fields : Fields
deriving Repr

/-- `fields.get(key, default)`: the stored (possibly null) value when the key
is present, the default otherwise. -/
def pyGetField (fields : Fields) (key : String) (dflt : Option String) : Option String :=
  match lookupField fields key with
  | some v => v
  | none => dflt

/-- Externally visible behavior of one row worker: Airtable writes and error
logs. -/
inductive RowEv where
  | write (fields : List (String × String))
  | logError (msg : String)
deriving DecidableEq, Repr

/-- `process_row` (`bad_main.py` lines 59-86): dispatch on
`status == "Todo" and url` / `status == "Toai"` (with dict defaults
`"No URL"` and `"Unknown"`); the handler's exception, if any, is caught by
the `except` at line 79 and ONLY logged — the `Status=Error` update there is
commented out in the source (lines 83-84). `hW`/`hA` give each handler's
outcome: its own event trace, or the exception that escapes it. -/
def process_row (hW hA : Row → Except String (List RowEv)) (row : Row) : List RowEv :=
  let status := pyGetField row.fields "Status" (some "Unknown")
  let url := pyGetField row.fields "URL" (some "No URL")
  if status = some "Todo" ∧ truthyOpt url then
    match hW row with
    | .ok evs => evs
    | .error e => [RowEv.logError e]
  else if status = some "Toai" then
    match hA row with
    | .ok evs => evs
    | .error e => [RowEv.logError e]
  else []

/-- The per-row traces of one cycle (`main_async`, `bad_main.py` lines
341-346): one `process_row` task per fetched row, awaited by
`asyncio.gather`; since `process_row` never raises, every row's task runs to
completion. -/
def main_cycle (hW hA : Row → Except String (List RowEv)) (rows : List Row) :
    List (List RowEv) :=
  rows.map (process_row hW hA)

/- ============== the per-cycle semaphore (concurrency bound) =========== -/

/-- Where one row task stands relative to `async with semaphore`
(`bad_main.py` line 67): not yet acquired, inside the guarded section, or
finished (semaphore released). -/
inductive TaskPhase where
  | waiting
  | running
  | done
deriving DecidableEq, Repr

/-- Semaphore counter plus the phase of each row task of the cycle. -/
structure PoolState where
  avail : Nat
  tasks : List TaskPhase
deriving DecidableEq, Repr

/-- Cycle start (`bad_main.py` lines 341-343): `asyncio.Semaphore(CONCURRENCY)`
fresh, all row tasks created and not yet inside the guarded section. -/
def initPool (concurrency rows : Nat) : PoolState :=
  { avail := concurrency, tasks := List.replicate rows TaskPhase.waiting }

/-- Interleaving semantics of `asyncio.Semaphore` under the `async with`
discipline of `process_row`: a waiting task may enter only when the counter
is positive (decrementing it); a running task leaving re-increments it. -/
inductive PoolStep : PoolState → PoolState → Prop where
  | acquire (a : Nat) (ts : List TaskPhase) (i : Nat)
      (h : ts[i]? = some TaskPhase.waiting) :
      PoolStep { avail := a + 1, tasks := ts }
        { avail := a, tasks := ts.set i TaskPhase.running }
  | release (a : Nat) (ts : List TaskPhase) (i : Nat)
      (h : ts[i]? = some TaskPhase.running) :
      PoolStep { avail := a, tasks := ts }
        { avail := a + 1, tasks := ts.set i TaskPhase.done }

/-- States reachable within one cycle. -/
inductive PoolReach (s0 : PoolState) : PoolState → Prop where
  | refl : PoolReach s0 s0
  | step (s s2 : PoolState) : PoolReach s0 s → PoolStep s s2 → PoolReach s0 s2

/-- How many row workers are inside the guarded section. -/
def runningCount (s : PoolState) : Nat :=
  s.tasks.countP (fun t => t == TaskPhase.running)

/- ================= bad_main: the continuous scheduler ================= -/

/-- Per-iteration outcomes of the external world in `run_continuously`:
whether a needed browser (re)launch succeeds, whether the cycle body raises
(everything raised by `main_async` or browser management is caught at line
387), and whether the browser is found disconnected at iteration start. -/
structure SchedEnv where
  launchOk : Nat → Bool
  cycleFails : Nat → Bool
  disconnects : Nat → Bool

/-- Observable events of the scheduler loop. -/
inductive SchedEv where
  | launch (ok : Bool)
  | cycle (failed : Bool)
  | sleep (secs : Nat)
  | stopped
deriving DecidableEq, Repr

/-- Default of `PROCESSING_INTERVAL_SECONDS` (`bad_main.py` line 39). -/
def PROCESSING_INTERVAL_SECONDS_default : Nat := 5

/-- The `while True` loop of `run_continuously` (`bad_main.py` lines
358-409), unrolled for `fuel` iterations (the loop itself never ends; `fuel`
models observing it until an external interruption). `up` is whether a
connected browser instance is at hand (initially `False`: `browser = None`).
Each iteration relaunches the browser if needed — a failed launch `break`s
the loop (line 382) — then runs the cycle (exceptions caught, line 387),
then always sleeps the constant interval and continues. -/
def run_continuously (env : SchedEnv) (interval : Nat) :
    Nat → Bool → Nat → List SchedEv
  | 0, _, _ => []
  | fuel + 1, up, i =>
    if up = true ∧ env.disconnects i = false then
      SchedEv.cycle (env.cycleFails i) :: SchedEv.sleep interval ::
        run_continuously env interval fuel true (i + 1)
    else if env.launchOk i then
      SchedEv.launch true :: SchedEv.cycle (env.cycleFails i) :: SchedEv.sleep interval ::
        run_continuously env interval fuel true (i + 1)
    else [SchedEv.launch false, SchedEv.stopped]

/- ======================= helper lemmas: stripping ===================== -/

theorem dropWhile_pyStripL (l : List Char) :
    List.dropWhile isPySpace (pyStripL l) = pyStripL l := by
  unfold pyStripL
  have hd : List.dropWhile isPySpace (List.dropWhile isPySpace l)
      = List.dropWhile isPySpace l := List.dropWhile_idempotent isPySpace l
  obtain ⟨t, ht⟩ := List.rdropWhile_prefix isPySpace (List.dropWhile isPySpace l)
  cases hrd : List.rdropWhile isPySpace (List.dropWhile isPySpace l) with
  | nil => simp [List.dropWhile]
  | cons a rest =>
    rw [hrd] at ht
    have hpa : isPySpace a = false := by
      rw [← ht, List.cons_append, List.dropWhile_cons] at hd
      by_cases hp : isPySpace a = true
      · rw [if_pos hp] at hd
        have hle := (List.dropWhile_sublist (l := rest ++ t) isPySpace).length_le
        have h2 : (List.dropWhile isPySpace (rest ++ t)).length = (rest ++ t).length + 1 := by
          rw [hd]
          simp
        omega
      · simpa using hp
    rw [List.dropWhile_cons, hpa]
    simp

theorem pyStripL_idem (l : List Char) : pyStripL (pyStripL l) = pyStripL l := by
  conv_lhs => rw [pyStripL]
  rw [dropWhile_pyStripL]
  rw [pyStripL]
  exact List.rdropWhile_idempotent isPySpace (List.dropWhile isPySpace l)

theorem pyStrip_idem (s : String) : pyStrip (pyStrip s) = pyStrip s := by
  unfold pyStrip
  rw [show (String.mk (pyStripL s.data)).data = pyStripL s.data from rfl, pyStripL_idem]

/- ==================== helper lemmas: run collapsing =================== -/

theorem chain'_of_length_le_one {R : Char → Char → Prop} (l : List Char)
    (h : l.length ≤ 1) : List.Chain' R l := by
  match l with
  | [] => exact List.chain'_nil
  | [a] => exact List.chain'_singleton a
  | a :: b :: rest => simp at h

theorem runFlush_space (run : List Char) (hrun : ∀ a ∈ run, isPySpace a = true) :
    (∀ a ∈ runFlush 2 [' '] run, isPySpace a = true) ∧ (runFlush 2 [' '] run).length ≤ 1 := by
  unfold runFlush
  split
  · constructor
    · intro a ha
      simp at ha
      subst ha
      decide
    · simp
  · rename_i hlen
    exact ⟨hrun, by omega⟩

theorem chain'_collapseAux (l : List Char) :
    ∀ (run : List Char), (∀ a ∈ run, isPySpace a = true) →
      List.Chain' (fun a b => ¬(isPySpace a = true ∧ isPySpace b = true))
        (collapseRunsAux isPySpace 2 [' '] run l) := by
  induction l with
  | nil =>
    intro run hrun
    exact chain'_of_length_le_one _ (runFlush_space run hrun).2
  | cons c cs ih =>
    intro run hrun
    rw [collapseRunsAux]
    by_cases hc : isPySpace c = true
    · rw [if_pos hc]
      apply ih
      intro a ha
      rcases List.mem_append.mp ha with h | h
      · exact hrun a h
      · simp at h
        subst h
        exact hc
    · rw [if_neg hc]
      apply List.chain'_append.mpr
      refine ⟨chain'_of_length_le_one _ (runFlush_space run hrun).2, ?_, ?_⟩
      · apply List.chain'_cons'.mpr
        constructor
        · intro y _ hy
          exact hc hy.1
        · exact ih [] (by simp)
      · intro x _ y hy
        simp at hy
        subst hy
        intro hxy
        exact hc hxy.2

theorem chain'_normalize_body_text (s : String) :
    List.Chain' (fun a b => ¬(isPySpace a = true ∧ isPySpace b = true))
      (normalize_body_text s).data := by
  unfold normalize_body_text collapseRuns
  exact chain'_collapseAux _ [] (by simp)

/- ================================ C2 ================================== -/

/-- C2, counterexample: the body text `"a\n\n\n\nb"` does NOT normalize to
`"a\n\nb"` as claimed — the second `re.sub` pass (`\s{2,}` to a single space)
collapses the double newline produced by the first pass, yielding `"a b"`. -/
theorem c2_counterexample :
    normalize_body_text "a\n\n\n\nb" ≠ "a\n\nb" ∧
      normalize_body_text "a\n\n\n\nb" = "a b" := by
  constructor
  · decide
  · rfl

/-- C2, amended: normalization applies the newline pass first (3+ newlines to
2) and the whitespace pass second (2+ whitespace characters, including the
just-produced double newlines, to one space), so `"a\n\n\n\nb"` normalizes to
`"a b"`, `"a    b"` normalizes to `"a b"`, and no two consecutive whitespace
characters survive in any normalized text. -/
theorem c2_normalization :
    normalize_body_text "a\n\n\n\nb" = "a b" ∧
      normalize_body_text "a    b" = "a b" ∧
      ∀ s : String,
        List.Chain' (fun a b => ¬(isPySpace a = true ∧ isPySpace b = true))
          (normalize_body_text s).data := by
  exact ⟨rfl, rfl, chain'_normalize_body_text⟩

/- ================================ C7 ================================== -/

theorem pyStrip_empty : pyStrip "" = "" := rfl

/-- C7, counterexample: the fallback chain tests the UNtrimmed candidate and
trims only the selected one, so a whitespace-only primary title shadows a
non-empty `og:title`: the code returns `""` where the claimed
first-non-empty-after-trimming chain returns `"OG"`. -/
theorem c7_counterexample :
    resolve_title " " (some "OG") none = "" ∧
      spec_first_trimmed_nonempty [" ", "OG", ""] = "OG" ∧
      resolve_title " " (some "OG") none ≠
        spec_first_trimmed_nonempty [" ", "OG", ""] := by
  refine ⟨rfl, rfl, ?_⟩
  decide

/-- C7, amended: title and description resolution fall back through
primary, then Open-Graph, then Twitter-card, stopping at the first candidate
that is non-empty BEFORE trimming, and return that candidate trimmed; when no
candidate is whitespace-only (every candidate that trims to empty is itself
empty), this coincides with the claimed first-non-empty-after-trimming
chain. -/
theorem c7_fallback_chain :
    (∀ (primary : String) (og tw : Option String),
        (pyStrip primary = "" → primary = "") →
        (pyStrip (og.getD "") = "" → og.getD "" = "") →
        (pyStrip (tw.getD "") = "" → tw.getD "" = "") →
        resolve_title primary og tw
          = spec_first_trimmed_nonempty [primary, og.getD "", tw.getD ""]) ∧
      (∀ (m og tw : Option String),
        (pyStrip (m.getD "") = "" → m.getD "" = "") →
        (pyStrip (og.getD "") = "" → og.getD "" = "") →
        (pyStrip (tw.getD "") = "" → tw.getD "" = "") →
        resolve_description m og tw
          = spec_first_trimmed_nonempty [m.getD "", og.getD "", tw.getD ""]) := by
  constructor
  · intro primary og tw hp hog htw
    by_cases h1 : primary = ""
    · subst h1
      rcases og with _ | s
      · rcases tw with _ | t
        · simp [resolve_title, spec_first_trimmed_nonempty, truthyOpt, pyStrip_empty]
        · by_cases h3 : t = ""
          · subst h3
            simp [resolve_title, spec_first_trimmed_nonempty, truthyOpt, pyStrip_empty]
          · have h4 : pyStrip t ≠ "" := fun h => h3 (htw h)
            simp [resolve_title, spec_first_trimmed_nonempty, truthyOpt, pyStrip_empty, h3, h4]
      · by_cases h2 : s = ""
        · subst h2
          rcases tw with _ | t
          · simp [resolve_title, spec_first_trimmed_nonempty, truthyOpt, pyStrip_empty]
          · by_cases h3 : t = ""
            · subst h3
              simp [resolve_title, spec_first_trimmed_nonempty, truthyOpt, pyStrip_empty]
            · have h4 : pyStrip t ≠ "" := fun h => h3 (htw h)
              simp [resolve_title, spec_first_trimmed_nonempty, truthyOpt, pyStrip_empty, h3, h4]
        · have h4 : pyStrip s ≠ "" := fun h => h2 (hog h)
          simp [resolve_title, spec_first_trimmed_nonempty, truthyOpt, pyStrip_empty, h2, h4]
    · have h4 : pyStrip primary ≠ "" := fun h => h1 (hp h)
      simp [resolve_title, spec_first_trimmed_nonempty, truthyOpt, h1, h4]
  · intro m og tw hm hog htw
    rcases m with _ | s0
    · rcases og with _ | s
      · rcases tw with _ | t
        · simp [resolve_description, spec_first_trimmed_nonempty, truthyOpt, pyStrip_empty]
        · by_cases h3 : t = ""
          · subst h3
            simp [resolve_description, spec_first_trimmed_nonempty, truthyOpt, pyStrip_empty]
          · have h4 : pyStrip t ≠ "" := fun h => h3 (htw h)
            simp [resolve_description, spec_first_trimmed_nonempty, truthyOpt, pyStrip_empty, h3, h4]
      · by_cases h2 : s = ""
        · subst h2
          rcases tw with _ | t
          · simp [resolve_description, spec_first_trimmed_nonempty, truthyOpt, pyStrip_empty]
          · by_cases h3 : t = ""
            · subst h3
              simp [resolve_description, spec_first_trimmed_nonempty, truthyOpt, pyStrip_empty]
            · have h4 : pyStrip t ≠ "" := fun h => h3 (htw h)
              simp [resolve_description, spec_first_trimmed_nonempty, truthyOpt, pyStrip_empty, h3, h4]
        · have h4 : pyStrip s ≠ "" := fun h => h2 (hog h)
          simp [resolve_description, spec_first_trimmed_nonempty, truthyOpt, pyStrip_empty, h2, h4]
    · by_cases h0 : s0 = ""
      · subst h0
        rcases og with _ | s
        · rcases tw with _ | t
          · simp [resolve_description, spec_first_trimmed_nonempty, truthyOpt, pyStrip_empty]
          · by_cases h3 : t = ""
            · subst h3
              simp [resolve_description, spec_first_trimmed_nonempty, truthyOpt, pyStrip_empty]
            · have h4 : pyStrip t ≠ "" := fun h => h3 (htw h)
              simp [resolve_description, spec_first_trimmed_nonempty, truthyOpt, pyStrip_empty, h3, h4]
        · by_cases h2 : s = ""
          · subst h2
            rcases tw with _ | t
            · simp [resolve_description, spec_first_trimmed_nonempty, truthyOpt, pyStrip_empty]
            · by_cases h3 : t = ""
              · subst h3
                simp [resolve_description, spec_first_trimmed_nonempty, truthyOpt, pyStrip_empty]
              · have h4 : pyStrip t ≠ "" := fun h => h3 (htw h)
                simp [resolve_description, spec_first_trimmed_nonempty, truthyOpt, pyStrip_empty, h3, h4]
          · have h4 : pyStrip s ≠ "" := fun h => h2 (hog h)
            simp [resolve_description, spec_first_trimmed_nonempty, truthyOpt, pyStrip_empty, h2, h4]
      · have h4 : pyStrip s0 ≠ "" := fun h => h0 (hm h)
        simp [resolve_description, spec_first_trimmed_nonempty, truthyOpt, pyStrip_empty, h0, h4]

/-- C7, witness: the amended fallback agreement applied to concrete
candidates with no whitespace-only entries. -/
theorem c7_fallback_chain_witness :
    resolve_title "Main" (some "OG") none
      = spec_first_trimmed_nonempty ["Main", "OG", ""] :=
  c7_fallback_chain.1 "Main" (some "OG") none (by decide) (by decide) (by decide)

/- ================================ C10 ================================= -/

theorem stripSurroundingQuote_stripped (q : Char) (t : List Char) (h : pyStripL t = t) :
    pyStripL (stripSurroundingQuote q t) = stripSurroundingQuote q t := by
  unfold stripSurroundingQuote
  split
  · exact pyStripL_idem _
  · exact h

theorem cleanupResponse_some (content : Option String) (s : String)
    (h : cleanupResponse content = some s) : s ≠ "" ∧ pyStrip s = s := by
  simp only [cleanupResponse] at h
  set t2 := stripSurroundingQuote sqc (stripSurroundingQuote dqc (pyStripL (content.getD "").data)) with ht2
  by_cases hz : t2 = []
  · rw [if_pos hz] at h
    cases h
  · rw [if_neg hz] at h
    injection h with h
    subst h
    constructor
    · intro hmk
      apply hz
      have h2 := congrArg String.data hmk
      simpa using h2
    · have hs : pyStripL t2 = t2 := by
        rw [ht2]
        apply stripSurroundingQuote_stripped
        apply stripSurroundingQuote_stripped
        exact pyStripL_idem _
      show pyStrip (String.mk t2) = String.mk t2
      unfold pyStrip
      rw [show (String.mk t2).data = t2 from rfl, hs]

/-- C10, counterexample: on the content `"'x'"` (a double-quoted, then
single-quoted `x`) the wrapper removes BOTH layers and returns `x`, whereas
removing one layer of matching surrounding quotes, as claimed, would return
`'x'`. -/
theorem c10_counterexample :
    get_ai_response true (Except.ok (some "\x22\x27x\x27\x22")) = some "x" ∧
      claim_one_layer_cleanup (some "\x22\x27x\x27\x22") = some "\x27x\x27" ∧
      get_ai_response true (Except.ok (some "\x22\x27x\x27\x22")) ≠
        claim_one_layer_cleanup (some "\x22\x27x\x27\x22") := by
  refine ⟨rfl, rfl, ?_⟩
  decide

/-- C10, amended: the completion wrapper never raises; it returns `none` when
the API key is unset or the completion call raises, and every non-`none`
result is a non-empty whitespace-stripped string — the cleanup strips, then
removes at most one layer of surrounding double quotes (re-stripping), then
at most one layer of surrounding single quotes (re-stripping), so up to two
nested quote layers can be removed. -/
theorem c10_wrapper :
    (∀ call : Except String (Option String), get_ai_response false call = none) ∧
      (∀ e : String, get_ai_response true (Except.error e) = none) ∧
      (∀ (k : Bool) (call : Except String (Option String)) (s : String),
        get_ai_response k call = some s → s ≠ "" ∧ pyStrip s = s) := by
  refine ⟨fun _ => rfl, fun _ => rfl, ?_⟩
  intro k call s h
  match k with
  | false => simp [get_ai_response] at h
  | true =>
    match call with
    | .error e => simp [get_ai_response] at h
    | .ok content =>
      simp only [get_ai_response] at h
      exact cleanupResponse_some content s (by simpa using h)

/-- C10, witness: the amended wrapper properties applied to a concrete
quoted, padded completion. -/
theorem c10_wrapper_witness :
    ("hi" : String) ≠ "" ∧ pyStrip "hi" = "hi" :=
  c10_wrapper.2.2 true (Except.ok (some "  hi  ")) "hi" (by decide)

/- ================================ C3 ================================== -/

/-- C3: the validated-completion loop accepts a completion exactly on the
literal validation response `"1"` (first conjunct: immediate acceptance);
otherwise it folds the feedback into the revised prompt of `mkRetryPrompt`
and retries within the budget of 3 attempts — with non-`"1"` feedback on the
first two attempts and `"1"` on the third, it returns the third completion
and stops (second conjunct); and when every attempt draws non-`"1"` feedback
the budget is exhausted and the result is `none` (third conjunct). -/
theorem c3_validated_retry :
    (∀ (cO vO : Nat → String → Option String) (p c : String),
        cO 0 p = some c → c ≠ "" →
        vO 0 (mkValidationPrompt p c) = some "1" →
        get_validated_response_async cO vO p = some c) ∧
      (∀ (cO vO : Nat → String → Option String) (p c0 f0 c1 f1 c2 : String),
        cO 0 p = some c0 → c0 ≠ "" →
        vO 0 (mkValidationPrompt p c0) = some f0 → f0 ≠ "" → f0 ≠ "1" →
        cO 1 (mkRetryPrompt p f0) = some c1 → c1 ≠ "" →
        vO 1 (mkValidationPrompt (mkRetryPrompt p f0) c1) = some f1 → f1 ≠ "" → f1 ≠ "1" →
        cO 2 (mkRetryPrompt (mkRetryPrompt p f0) f1) = some c2 → c2 ≠ "" →
        vO 2 (mkValidationPrompt (mkRetryPrompt (mkRetryPrompt p f0) f1) c2) = some "1" →
        get_validated_response_async cO vO p = some c2) ∧
      (∀ (cO vO : Nat → String → Option String),
        (∀ k q, ∃ c, cO k q = some c ∧ c ≠ "") →
        (∀ k q, ∃ f, vO k q = some f ∧ f ≠ "" ∧ f ≠ "1") →
        ∀ (r k : Nat) (p : String), get_validated_response cO vO r k p = none) := by
  refine ⟨?_, ?_, ?_⟩
  · intro cO vO p c h1 h2 h3
    simp [get_validated_response_async, get_validated_response, h1, h2, h3]
  · intro cO vO p c0 f0 c1 f1 c2 hc0 hc0n hf0 hf0n hf01 hc1 hc1n hf1 hf1n hf11 hc2 hc2n hf2
    simp [get_validated_response_async, get_validated_response,
      hc0, hc0n, hf0, hf0n, hf01, hc1, hc1n, hf1, hf1n, hf11, hc2, hc2n, hf2]
  · intro cO vO hc hv r
    induction r with
    | zero => intro k p; rfl
    | succ r ih =>
      intro k p
      obtain ⟨c, hcc, hcn⟩ := hc k p
      obtain ⟨f, hff, hfn, hf1⟩ := hv k (mkValidationPrompt p c)
      rw [get_validated_response, hcc]
      simp only [if_neg hcn]
      rw [hff]
      simp only [if_neg hfn, if_neg hf1]
      exact ih (k + 1) (mkRetryPrompt p f)

/-- C3, witness: concrete completion and validation stubs — feedback twice,
then `"1"` — make the loop return the third completion. -/
theorem c3_validated_retry_witness :
    get_validated_response_async
      (fun k _ => if k = 0 then some "a" else if k = 1 then some "b" else some "c")
      (fun k _ => if k < 2 then some "no" else some "1") "p" = some "c" :=
  c3_validated_retry.2.1
    (fun k _ => if k = 0 then some "a" else if k = 1 then some "b" else some "c")
    (fun k _ => if k < 2 then some "no" else some "1") "p" "a" "no" "b" "no" "c"
    rfl (by decide) rfl (by decide) (by decide)
    rfl (by decide) rfl (by decide) (by decide)
    rfl (by decide) rfl

/- ================================ C4 ================================== -/

theorem substPlaceholders_missing (fields : Fields) (p : List Char) :
    ∀ (ps : List (List Char)) (prompt : List Char), p ∈ ps →
      fieldValue fields (String.mk p) = none →
      substPlaceholders fields prompt ps = none := by
  intro ps
  induction ps with
  | nil =>
    intro prompt h _
    simp at h
  | cons q qs ih =>
    intro prompt hmem hfv
    rcases List.mem_cons.mp hmem with h | h
    · subst h
      simp [substPlaceholders, hfv]
    · cases hq : fieldValue fields (String.mk q) with
      | none => simp [substPlaceholders, hq]
      | some v =>
        simp [substPlaceholders, hq]
        exact ih _ h hfv

theorem resolve_prompt_missing (base : String) (fields : Fields) (p : List Char)
    (hmem : p ∈ findPlaceholders base.data)
    (hfv : fieldValue fields (String.mk p) = none) :
    resolve_prompt base fields = none := by
  unfold resolve_prompt
  rw [substPlaceholders_missing fields p _ _ hmem hfv]
  rfl

theorem ai_updates_keys (resp : List (String × AiCallResult)) :
    ∀ kv ∈ ai_updates_of resp, kv.1 ∈ resp.map Prod.fst := by
  intro kv hkv
  rcases List.mem_filterMap.mp hkv with ⟨a, ha, hfa⟩
  have h1 : kv.1 = a.1 := by
    rcases a with ⟨n, r⟩
    match r with
    | .error e =>
      simp at hfa
      rw [← hfa]
    | .ok (some s) =>
      simp at hfa
      rw [← hfa.2]
    | .ok none => cases hfa
  rw [h1]
  exact List.mem_map_of_mem Prod.fst ha

theorem enumFrom_names (ai : Nat → String → AiCallResult) (l : List (String × String)) :
    ∀ n, ((l.enumFrom n).map (fun ip => (ip.2.1, ai ip.1 ip.2.2))).map Prod.fst
      = l.map Prod.fst := by
  induction l with
  | nil => intro n; rfl
  | cons x xs ih =>
    intro n
    simp only [List.enumFrom, List.map_cons, ih (n + 1)]

theorem eligible_names_sources (lib : List (String × String)) (fields : Fields) :
    ∀ (schema : List SchemaField) (name : String),
      name ∈ (eligible_prompts lib schema fields).map Prod.fst →
      ∃ f, f ∈ schema ∧ f.name = name ∧
        ∃ bp, base_prompt lib f = some bp ∧ ∃ pr, resolve_prompt bp fields = some pr := by
  intro schema
  induction schema with
  | nil =>
    intro name h
    simp [eligible_prompts] at h
  | cons f rest ih =>
    intro name h
    rw [eligible_prompts] at h
    by_cases hcond : pyStartsWith f.name "AI_" = true ∧ hasField fields f.name = false
    · rw [if_pos hcond] at h
      cases hbp : base_prompt lib f with
      | none =>
        simp only [hbp] at h
        rcases ih name h with ⟨g, hg, hgn, rest2⟩
        exact ⟨g, List.mem_cons_of_mem f hg, hgn, rest2⟩
      | some bp =>
        simp only [hbp] at h
        cases hrp : resolve_prompt bp fields with
        | none =>
          simp only [hrp] at h
          rcases ih name h with ⟨g, hg, hgn, rest2⟩
          exact ⟨g, List.mem_cons_of_mem f hg, hgn, rest2⟩
        | some pr =>
          simp only [hrp] at h
          simp only [List.map_cons, List.mem_cons] at h
          rcases h with h | h
          · exact ⟨f, List.mem_cons_self f rest, h.symm, bp, hbp, pr, hrp⟩
          · rcases ih name h with ⟨g, hg, hgn, rest2⟩
            exact ⟨g, List.mem_cons_of_mem f hg, hgn, rest2⟩
    · rw [if_neg hcond] at h
      rcases ih name h with ⟨g, hg, hgn, rest2⟩
      exact ⟨g, List.mem_cons_of_mem f hg, hgn, rest2⟩

theorem handle_ai_update_keys (lib : List (String × String)) (schema : List SchemaField)
    (fields : Fields) (ai : Nat → String → AiCallResult) (w : List (String × String))
    (hw : w ∈ handle_ai_processing lib schema fields ai) :
    ∀ kv ∈ w, kv.1 = "Status" ∨ kv.1 = "Error Details" ∨
      kv.1 ∈ (eligible_prompts lib schema fields).map Prod.fst := by
  intro kv hkv
  simp only [handle_ai_processing] at hw
  split at hw
  · simp only [List.mem_cons, List.not_mem_nil, or_false] at hw
    rcases hw with h | h
    · subst h
      simp at hkv
      subst hkv
      left
      rfl
    · subst h
      simp at hkv
      rcases hkv with h | h
      · subst h
        left
        rfl
      · subst h
        right
        left
        rfl
  · simp only [List.cons_append, List.nil_append, List.mem_cons] at hw
    rcases hw with h | hw
    · subst h
      simp at hkv
      subst hkv
      left
      rfl
    · rcases List.mem_append.mp hw with h | h
      · by_cases hup : (ai_updates_of ((eligible_prompts lib schema fields).enum.map
            (fun ip => (ip.2.1, ai ip.1 ip.2.2)))).isEmpty
        · rw [if_pos hup] at h
          simp at h
        · rw [if_neg hup] at h
          simp only [List.mem_cons, List.not_mem_nil, or_false] at h
          subst h
          right
          right
          have h1 := ai_updates_keys _ kv hkv
          have h2 := enumFrom_names ai (eligible_prompts lib schema fields) 0
          rw [show (eligible_prompts lib schema fields).enum
              = (eligible_prompts lib schema fields).enumFrom 0 from rfl] at h1
          rw [h2] at h1
          exact h1
      · simp only [List.mem_cons, List.not_mem_nil, or_false] at h
        subst h
        simp at hkv
        subst hkv
        left
        rfl

/-- C4: placeholder resolution. First conjunct: the template `"Hello {Name}"`
with row fields `{Name: "Ann"}` resolves to `"Hello Ann"` by literal
replacement. Second: a template with any placeholder that is absent from the
row fields or null resolves to `none` (the field is skipped, no partial
prompt). Third: every key the AI worker ever writes is `Status`,
`Error Details`, or the name of an eligible field. Fourth: every eligible
field name comes from a schema field whose base prompt and full placeholder
resolution both succeeded — so a field skipped by resolution is never
updated. -/
theorem c4_placeholder_resolution :
    resolve_prompt "Hello \x7bName\x7d" [("Name", some "Ann")] = some "Hello Ann" ∧
      (∀ (base : String) (fields : Fields) (p : List Char),
        p ∈ findPlaceholders base.data →
        fieldValue fields (String.mk p) = none →
        resolve_prompt base fields = none) ∧
      (∀ (lib : List (String × String)) (schema : List SchemaField) (fields : Fields)
          (ai : Nat → String → AiCallResult) (w : List (String × String)),
        w ∈ handle_ai_processing lib schema fields ai →
        ∀ kv ∈ w, kv.1 = "Status" ∨ kv.1 = "Error Details" ∨
          kv.1 ∈ (eligible_prompts lib schema fields).map Prod.fst) ∧
      (∀ (lib : List (String × String)) (fields : Fields) (schema : List SchemaField)
          (name : String),
        name ∈ (eligible_prompts lib schema fields).map Prod.fst →
        ∃ f, f ∈ schema ∧ f.name = name ∧
          ∃ bp, base_prompt lib f = some bp ∧
            ∃ pr, resolve_prompt bp fields = some pr) :=
  ⟨rfl, resolve_prompt_missing, handle_ai_update_keys,
    fun lib fields => eligible_names_sources lib fields⟩

/-- C4, witness: a null `Name` field makes the concrete template resolution
skip (return `none`). -/
theorem c4_placeholder_resolution_witness :
    resolve_prompt "Hello \x7bName\x7d" [("Name", none)] = none :=
  c4_placeholder_resolution.2.1 "Hello \x7bName\x7d" [("Name", none)] "Name".data
    (by decide) (by decide)

/- ================================ C1 ================================== -/

/-- C1: on a `Toai` row with zero eligible AI-prefixed fields (here: an empty
schema) and no completion exceptions, the final status written is `Error`,
not `Done`: `ai_tasks` stays empty, so `has_errors` (assigned only inside
`if ai_tasks:`, `bad_main.py` line 244) is unbound at line 262, the resulting
`UnboundLocalError` lands in the `except` handler, and the handler writes
`Status=Error` with `AI setup failed` details. The contrasting conjunct: with
one eligible field and a successful completion the final status is `Done`. -/
theorem c1_empty_tasks_unbound_local :
    finalStatus (handle_ai_processing [] [] [] (fun _ _ => Except.ok none)) = some "Error" ∧
      handle_ai_processing [] [] [] (fun _ _ => Except.ok none)
        = [[("Status", "AI in progress")],
           [("Status", "Error"),
            ("Error Details", "AI setup failed: " ++ pyTake1000 hasErrorsUnboundMsg)]] ∧
      finalStatus (handle_ai_processing [("AI_X", "hi")] [⟨"AI_X", none⟩] []
        (fun _ _ => Except.ok (some "out"))) = some "Done" :=
  ⟨rfl, rfl, rfl⟩

/- ================================ C5 ================================== -/

/-- C5, counterexample: a `Toai` row whose handler raises `"boom"` is caught
at the `process_row` boundary and only logged — the trace contains no write
at all (the `Status=Error` update there is commented out in the source), so
the exception is NOT converted into a `Status=Error` write for the row. -/
theorem c5_counterexample :
    process_row (fun _ => Except.ok []) (fun _ => Except.error "boom")
        ⟨"r1", [("Status", some "Toai")]⟩ = [RowEv.logError "boom"] ∧
      (process_row (fun _ => Except.ok []) (fun _ => Except.error "boom")
        ⟨"r1", [("Status", some "Toai")]⟩).countP
          (fun ev => match ev with | RowEv.write _ => true | _ => false) = 0 :=
  ⟨rfl, rfl⟩

/-- C5, amended: any exception escaping a row handler is caught at the worker
boundary and logged, but not converted into a `Status=Error` write there (the
handlers write `Status=Error` only inside their own `except` paths); the
exception never propagates — every row scheduled in the cycle is still
processed, and each row's trace depends only on that row. -/
theorem c5_failure_isolation :
    (∀ (hW hA : Row → Except String (List RowEv)) (rows : List Row),
        (main_cycle hW hA rows).length = rows.length) ∧
      (∀ (hW hA : Row → Except String (List RowEv)) (rows : List Row) (i : Nat),
        (main_cycle hW hA rows)[i]? = (rows[i]?).map (process_row hW hA)) ∧
      (∀ (hW hA : Row → Except String (List RowEv)) (row : Row) (e : String),
        pyGetField row.fields "Status" (some "Unknown") = some "Toai" →
        hA row = Except.error e →
        process_row hW hA row = [RowEv.logError e]) ∧
      (∀ (hW hA : Row → Except String (List RowEv)) (row : Row) (e : String),
        pyGetField row.fields "Status" (some "Unknown") = some "Todo" →
        truthyOpt (pyGetField row.fields "URL" (some "No URL")) = true →
        hW row = Except.error e →
        process_row hW hA row = [RowEv.logError e]) := by
  refine ⟨?_, ?_, ?_, ?_⟩
  · intro hW hA rows
    simp [main_cycle]
  · intro hW hA rows i
    simp [main_cycle]
  · intro hW hA row e hst ha
    simp [process_row, hst, ha]
  · intro hW hA row e hst hurl hw
    simp [process_row, hst, hurl, hw]

/-- C5, witness: the amended boundary behavior applied to a concrete failing
`Toai` row. -/
theorem c5_failure_isolation_witness :
    process_row (fun _ => Except.ok []) (fun _ => Except.error "kaput")
      ⟨"r2", [("Status", some "Toai")]⟩ = [RowEv.logError "kaput"] :=
  c5_failure_isolation.2.2.1 (fun _ => Except.ok []) (fun _ => Except.error "kaput")
    ⟨"r2", [("Status", some "Toai")]⟩ "kaput" rfl rfl

/- ================================ C6 ================================== -/

theorem countP_set_eq (p : TaskPhase → Bool) :
    ∀ (ts : List TaskPhase) (i : Nat) (a b : TaskPhase), ts[i]? = some a →
      (ts.set i b).countP p + (if p a then 1 else 0)
        = ts.countP p + (if p b then 1 else 0) := by
  intro ts
  induction ts with
  | nil =>
    intro i a b h
    simp at h
  | cons t rest ih =>
    intro i a b h
    cases i with
    | zero =>
      simp at h
      subst h
      simp only [List.set, List.countP_cons]
      omega
    | succ n =>
      simp at h
      have hc := ih n a b h
      simp only [List.set, List.countP_cons]
      omega

theorem countP_replicate_waiting (m : Nat) :
    (List.replicate m TaskPhase.waiting).countP (fun t => t == TaskPhase.running) = 0 := by
  induction m with
  | zero => rfl
  | succ m ih => simp [List.replicate, List.countP_cons, ih]

theorem pool_invariant (n k : Nat) :
    ∀ s, PoolReach (initPool n k) s → runningCount s + s.avail = n := by
  intro s h
  induction h with
  | refl => simp [initPool, runningCount, countP_replicate_waiting]
  | step s1 s2 _ hstep ih =>
    cases hstep with
    | acquire a ts i hi =>
      have hc := countP_set_eq (fun t => t == TaskPhase.running) ts i
        TaskPhase.waiting TaskPhase.running hi
      simp only [runningCount] at ih ⊢
      simp at hc
      omega
    | release a ts i hi =>
      have hc := countP_set_eq (fun t => t == TaskPhase.running) ts i
        TaskPhase.running TaskPhase.done hi
      simp only [runningCount] at ih ⊢
      simp at hc
      omega

/-- C6: in every state reachable within one cycle under the `async with
semaphore` discipline, at most `concurrency` row workers are inside the
guarded row-processing section simultaneously (in particular, with
`CONCURRENCY=2` and 5 rows, at most 2 are ever active). -/
theorem c6_concurrency_bound (concurrency rows : Nat) (s : PoolState)
    (h : PoolReach (initPool concurrency rows) s) :
    runningCount s ≤ concurrency := by
  have hi := pool_invariant concurrency rows s h
  omega

/-- C6, witness: with `CONCURRENCY=2` and 5 row tasks, the state reached by
two acquisitions has 2 running workers, within the bound. -/
theorem c6_concurrency_bound_witness :
    runningCount ⟨0, ((List.replicate 5 TaskPhase.waiting).set 0 TaskPhase.running).set 1
        TaskPhase.running⟩ ≤ 2 :=
  c6_concurrency_bound 2 5 _
    (PoolReach.step _ _
      (PoolReach.step _ _ PoolReach.refl
        (PoolStep.acquire 1 (List.replicate 5 TaskPhase.waiting) 0 rfl))
      (PoolStep.acquire 0 ((List.replicate 5 TaskPhase.waiting).set 0 TaskPhase.running) 1 rfl))

/- ================================ C8 ================================== -/

/-- C8: in `handle_website`, a null screenshot path returned by the extractor
is a hard failure (the row ends with a `Status=Error` write, first conjunct);
an exception during extraction (second), upload (third, with the
just-written screenshot removed) or the final field update (fourth, with
best-effort removal of a screenshot whose earlier deletion failed) leads to
best-effort cleanup of local screenshot files and a `Status=Error` write
whose `Error Details` embeds the exception text truncated to at most 1000
characters (fifth conjunct: the truncation bound). -/
theorem c8_web_error_handling :
    (∀ (purl : Option String) (env : WebEnv) (r1 : ExtractResult),
        env.extract1 = Except.ok r1 → r1.path = none →
        handle_website purl env
          = [WebEv.update [("Status", "In progress")],
             WebEv.update [("Status", "Error"),
               ("Error Details", webFailPrefix ++ pyTake1000 screenshotFailMsg)]]) ∧
      (∀ (purl : Option String) (env : WebEnv) (e : String),
        env.extract1 = Except.error e →
        handle_website purl env
          = [WebEv.update [("Status", "In progress")],
             WebEv.update [("Status", "Error"),
               ("Error Details", webFailPrefix ++ pyTake1000 e)]]) ∧
      (∀ (purl : Option String) (env : WebEnv) (r1 : ExtractResult) (sp e : String),
        env.extract1 = Except.ok r1 → r1.path = some sp →
        env.uploadRes = Except.error e →
        handle_website purl env
          = [WebEv.update [("Status", "In progress")], WebEv.upload "Screenshot" sp,
             WebEv.remove sp,
             WebEv.update [("Status", "Error"),
               ("Error Details", webFailPrefix ++ pyTake1000 e)]]) ∧
      (∀ (env : WebEnv) (r1 : ExtractResult) (sp e : String),
        env.extract1 = Except.ok r1 → r1.path = some sp →
        env.uploadRes = Except.ok () →
        env.updateMainRes = Except.error e →
        handle_website none env
          = [WebEv.update [("Status", "In progress")], WebEv.upload "Screenshot" sp,
             WebEv.remove sp] ++
            (if env.removePrimaryOk then [] else [WebEv.remove sp]) ++
            [WebEv.update [("Status", "Error"),
               ("Error Details", webFailPrefix ++ pyTake1000 e)]]) ∧
      (∀ e : String, (pyTake1000 e).length ≤ 1000) := by
  refine ⟨?_, ?_, ?_, ?_, ?_⟩
  · intro purl env r1 h1 h2
    simp only [handle_website, h1, h2, web_error_tail]
    rfl
  · intro purl env e h1
    simp only [handle_website, h1, web_error_tail]
    rfl
  · intro purl env r1 sp e h1 h2 h3
    simp only [handle_website, h1, h2, h3, web_error_tail]
    rfl
  · intro env r1 sp e h1 h2 h3 h4
    simp only [handle_website, h1, h2, h3, h4, web_error_tail]
    by_cases hr : env.removePrimaryOk
    · simp [hr]
    · simp [hr]
  · intro e
    have h1 : (pyTake1000 e).length = (e.data.take 1000).length := rfl
    rw [h1, List.length_take]
    omega

/-- C8, witness: a concrete run whose upload raises — the screenshot is
removed and the `Status=Error` write carries the truncated details. -/
theorem c8_web_error_handling_witness :
    handle_website none
      ⟨Except.ok ⟨some "shot.jpg", "T", "H", "D", "B"⟩, Except.error "upload boom",
        true, Except.ok ⟨none, "", "", "", ""⟩, true, Except.ok ()⟩
      = [WebEv.update [("Status", "In progress")], WebEv.upload "Screenshot" "shot.jpg",
         WebEv.remove "shot.jpg",
         WebEv.update [("Status", "Error"),
           ("Error Details", webFailPrefix ++ pyTake1000 "upload boom")]] :=
  c8_web_error_handling.2.2.1 none
    ⟨Except.ok ⟨some "shot.jpg", "T", "H", "D", "B"⟩, Except.error "upload boom",
      true, Except.ok ⟨none, "", "", "", ""⟩, true, Except.ok ()⟩
    ⟨some "shot.jpg", "T", "H", "D", "B"⟩ "shot.jpg" "upload boom" rfl rfl rfl

/- ================================ C9 ================================== -/

/-- C9, counterexample: when the browser launch fails the `while True` loop
`break`s (`bad_main.py` line 382): the trace is a failed launch followed by
loop termination, with no cycle run and no sleep — the scheduler does stop
without an external interruption, contradicting the claimed unconditional
indefinite run. -/
theorem c9_counterexample :
    run_continuously ⟨fun _ => false, fun _ => false, fun _ => false⟩ 5 3 false 0
        = [SchedEv.launch false, SchedEv.stopped] ∧
      SchedEv.stopped ∈
        run_continuously ⟨fun _ => false, fun _ => false, fun _ => false⟩ 5 3 false 0 :=
  ⟨rfl, by decide⟩

/-- C9, amended: as long as browser (re)launches succeed, the scheduler never
stops: every sleep in the trace is the one constant configured interval (no
backoff), and each of the `fuel` observed iterations runs exactly one cycle
— successful or failed — before sleeping and starting the next; the loop
exits only on external interruption or a failed browser launch. -/
theorem c9_scheduler_loop (env : SchedEnv) (interval : Nat)
    (hl : ∀ j, env.launchOk j = true) :
    ∀ (fuel i : Nat) (up : Bool),
      SchedEv.stopped ∉ run_continuously env interval fuel up i ∧
        (∀ s, SchedEv.sleep s ∈ run_continuously env interval fuel up i → s = interval) ∧
        (run_continuously env interval fuel up i).countP
          (fun ev => match ev with | SchedEv.cycle _ => true | _ => false) = fuel := by
  intro fuel
  induction fuel with
  | zero =>
    intro i up
    exact ⟨by simp [run_continuously], by simp [run_continuously], rfl⟩
  | succ fuel ih =>
    intro i up
    rw [run_continuously]
    by_cases hup : up = true ∧ env.disconnects i = false
    · rw [if_pos hup]
      obtain ⟨ih1, ih2, ih3⟩ := ih (i + 1) true
      refine ⟨?_, ?_, ?_⟩
      · simp [ih1]
      · intro s hs
        simp only [List.mem_cons] at hs
        rcases hs with h | h | h
        · cases h
        · exact (SchedEv.sleep.injEq s interval).mp h
        · exact ih2 s h
      · simp [List.countP_cons, ih3]
    · rw [if_neg hup, if_pos (hl i)]
      obtain ⟨ih1, ih2, ih3⟩ := ih (i + 1) true
      refine ⟨?_, ?_, ?_⟩
      · simp [ih1]
      · intro s hs
        simp only [List.mem_cons] at hs
        rcases hs with h | h | h | h
        · cases h
        · cases h
        · exact (SchedEv.sleep.injEq s interval).mp h
        · exact ih2 s h
      · simp [List.countP_cons, ih3]

/-- C9, witness: with launches always succeeding and every cycle failing, two
observed iterations still run exactly two cycles (the default 5-second
interval is passed as the constant interval). -/
theorem c9_scheduler_loop_witness :
    (run_continuously ⟨fun _ => true, fun _ => true, fun _ => false⟩
        PROCESSING_INTERVAL_SECONDS_default 2 false 0).countP
      (fun ev => match ev with | SchedEv.cycle _ => true | _ => false) = 2 :=
  (c9_scheduler_loop ⟨fun _ => true, fun _ => true, fun _ => false⟩
    PROCESSING_INTERVAL_SECONDS_default (fun _ => rfl) 2 0 false).2.2
